import Mathlib

/-
Verification of the RedisManager connection registry (src/index.ts) against
its specification.

Shallow embedding: the process-wide singleton state of the `RedisManager`
class (the static `instances` map, the `initialized` flag) is an explicit
`ManagerState` record threaded through every operation.  JavaScript's
single-threaded cooperative scheduling is modelled by splitting `async`
functions at their `await` points: the synchronous prefix of an un-awaited
call runs immediately, and the continuation after the `await` is queued on
the state (field `pending`) and runs later, when its promises settle.
Machine-level details of the transport (ioredis) are opaque: a client is a
record carrying an allocation identity, its constructor options, and the
property table the client object exposes (`prop in client` checks).
-/

namespace RedisMgr

/-- A property value found on a client object: a plain (non-callable) value
or a callable method.  Both are abstracted to a numeric payload; only the
plain/callable distinction and the payload identity matter to the manager. -/
inductive Val where
  | plain (v : Nat)
  | fn (f : Nat)
deriving DecidableEq, Repr

/-- Result of reading a property through the forwarding proxy: a plain value
is returned as-is, a callable is returned bound to a receiver client
(`value.bind(client)`), identified by the client's allocation id. -/
inductive GetResult where
  | plainVal (v : Nat)
  | boundFn (f : Nat) (receiver : Nat)
deriving DecidableEq, Repr

/-- Errors thrown by the manager.
`connectionNotFound key` models `throw new Error("Redis connection <key> not found")`
(the spec's `NotFound` condition); `methodNotFound prop` models
`throw new Error("Redis method <prop> not found")` (the spec's
`UnsupportedOperation` condition). -/
inductive Err where
  | connectionNotFound (key : String)
  | methodNotFound (prop : String)
deriving DecidableEq, Repr

/-- Caller-supplied options for one named connection: the TypeScript type
`RedisManagerConfigBase = Omit<RedisOptions, "retryStrategy" | "enableOfflineQueue"
| "maxRetriesPerRequest">`.  The three resilience fields cannot appear here;
the remaining caller-visible fields are abstracted to a host and a port. -/
structure RedisManagerConfigBase where
  host : String
  port : Nat
deriving DecidableEq, Repr

/-- The full options record passed to the `RedisClient` constructor:
the caller's base options spread first, then the three forced resilience
fields (`{...opt, retryStrategy, enableOfflineQueue, maxRetriesPerRequest}`). -/
structure FullOptions where
  base : RedisManagerConfigBase
  retryStrategy : Nat → Nat
  enableOfflineQueue : Bool
  maxRetriesPerRequest : Nat

/-- A live connection handle (`new RedisClient(...)`): an allocation id
(object identity), the options it was constructed with, and the property
table the client object exposes. -/
structure RedisClient where
  id : Nat
  opts : FullOptions
  props : List (String × Val)

/-- Association-list lookup by string key, first match wins: models
`Map.prototype.get` / `Map.prototype.has` on the `instances` map and the
`prop in client` property check. -/
def lookupAssoc {α : Type} : List (String × α) → String → Option α
  | [], _ => none
  | (k', v) :: rest, k => if k' = k then some v else lookupAssoc rest k

/-- Removal of a key from an association list: models
`Map.prototype.delete` (keys in a `Map` are unique, so removing every
occurrence agrees with removing the one entry). -/
def eraseKey {α : Type} : List (String × α) → String → List (String × α)
  | [], _ => []
  | (k', v) :: rest, k =>
      if k' = k then eraseKey rest k else (k', v) :: eraseKey rest k

/-- The process-wide singleton state of the `RedisManager` class.
`instances` and `initialized` are the two static fields.  `nextId` is the
allocation counter giving each constructed client a distinct identity.
`classProps` is the (fixed) property table of the transport client class:
every constructed client exposes exactly these properties; no manager
operation modifies it.  `pending` holds the queued continuations of
un-awaited `shutdown()` calls: each entry is the list of client ids whose
`quit()` that call issued; when all those quits settle successfully the
continuation clears `instances` and resets `initialized`. -/
structure ManagerState where
  instances : List (String × RedisClient)
  initialized : Bool
  nextId : Nat
  classProps : List (String × Val)
  pending : List (List Nat)

/-- The three resilience fields forced onto every constructed client,
spread over the caller's options:
`retryStrategy: (times) => Math.min(times * 100, 5000)`,
`enableOfflineQueue: true`, `maxRetriesPerRequest: 3`. -/
def forceResilience (opt : RedisManagerConfigBase) : FullOptions :=
  { base := opt
    retryStrategy := fun times => min (times * 100) 5000
    enableOfflineQueue := true
    maxRetriesPerRequest := 3 }

/-- `RedisManager.createInstance(key, opt)`: if a client already exists
under `key`, return it; otherwise construct a fresh client (new allocation
id, forced resilience policy, the class's property table), wire its event
observers (the diagnostic ones are side-effect-only and not modelled; the
`end` observer is `endEvent` below), store it under `key`, and return it.
`Map.prototype.set` on a fresh key appends in insertion order. -/
def createInstance (key : String) (opt : RedisManagerConfigBase)
    (s : ManagerState) : RedisClient × ManagerState :=
  match lookupAssoc s.instances key with
  | some c => (c, s)
  | none =>
      let c : RedisClient :=
        { id := s.nextId, opts := forceResilience opt, props := s.classProps }
      (c, { s with
              instances := s.instances ++ [(key, c)]
              nextId := s.nextId + 1 })

/-- The `end` event observer wired in `createInstance`: when the transport
reports that the connection named `key` has ended, the entry for `key` is
deleted from the registry (`this.instances.delete(key)`). -/
def endEvent (key : String) (s : ManagerState) : ManagerState :=
  { s with instances := eraseKey s.instances key }

/-- `RedisManager.connection(key)`: explicit registry lookup; throws
`connectionNotFound` when no client is registered under `key`. -/
def connection (key : String) (s : ManagerState) : Except Err RedisClient :=
  match lookupAssoc s.instances key with
  | some c => Except.ok c
  | none => Except.error (Err.connectionNotFound key)

/-- The body of the proxy's `get` trap, evaluated against the CURRENT state
at every property access: resolve `RedisManager.connection('default')`
(throwing `connectionNotFound "default"` if absent), then look the requested
property up on that client: a callable comes back bound to the client
(`value.bind(client)`), a plain value comes back as-is, and a missing
property throws `methodNotFound`. -/
def proxyGet (s : ManagerState) (prop : String) : Except Err GetResult :=
  match connection "default" s with
  | Except.error e => Except.error e
  | Except.ok client =>
      match lookupAssoc client.props prop with
      | some (Val.plain v) => Except.ok (GetResult.plainVal v)
      | some (Val.fn f) => Except.ok (GetResult.boundFn f client.id)
      | none => Except.error (Err.methodNotFound prop)

/-- The Default Router object returned by `createProxy`.  The only data the
code installs on it at creation time is the plain assignment
`proxy.connection = this.connection` on the raw target object, recorded
here as `targetProps`.  The `get` trap itself closes over nothing: it reads
the manager's current static state on every access. -/
structure Router where
  targetProps : List String
deriving DecidableEq, Repr

/-- `RedisManager.createProxy()`: builds a proxy around an empty target,
then assigns `connection` onto the target.  The creation-time state `_s`
is not captured anywhere in the trap. -/
def createProxy (_s : ManagerState) : Router :=
  { targetProps := ["connection"] }

/-- A property access `router.prop` at current state `cur`.  The proxy
handler defines only a `get` trap, and that trap ignores the target
(`get(_, prop)`), so every access — including `connection` — runs
`proxyGet` against the current state; the `targetProps` assignment is
unreachable through the proxy. -/
def routerAccess (_r : Router) (cur : ManagerState) (prop : String) :
    Except Err GetResult :=
  proxyGet cur prop

/-- The synchronous prefix of `RedisManager.shutdown()` as it executes when
the call is NOT awaited (as in `init` with `force = true`): if not
initialized, return at once with no effect; otherwise issue `quit()` on
every registered client (building the promise list) and suspend at
`await Promise.all(promises)`, queueing the continuation — the part after
the `await`, which clears `instances` and resets `initialized` — on
`pending`.  Nothing else of the state changes yet. -/
def shutdownSync (s : ManagerState) : ManagerState :=
  if s.initialized then
    { s with pending := s.pending ++ [s.instances.map (fun kv => kv.2.id)] }
  else s

/-- Settlement of the oldest queued shutdown continuation.  `quitOk c` tells
whether client id `c`'s `quit()` promise fulfilled.  If every quit of that
shutdown fulfilled, `Promise.all` resolves and the continuation runs:
`this.instances.clear(); this.initialized = false`.  If any quit rejected,
`Promise.all` rejects at once and the continuation after the `await` never
runs: the registry is left untouched. -/
def settlePending (quitOk : Nat → Bool) (s : ManagerState) : ManagerState :=
  match s.pending with
  | [] => s
  | q :: rest =>
      if q.all quitOk then
        { s with instances := [], initialized := false, pending := rest }
      else
        { s with pending := rest }

/-- `await RedisManager.shutdown()` run to settlement in one step (the
awaited call as used from `registerShutdownHooks`): returns whether the
returned promise fulfilled (`true`) or rejected (`false`), together with
the state after settlement.  Not initialized: immediate fulfilled no-op.
All quits fulfilled: `Promise.all` resolves, the registry is cleared and
`initialized` reset.  Some quit rejected: `Promise.all` rejects, the
statements after the `await` are skipped, and `shutdown()` rejects with
`instances` and `initialized` unchanged. -/
def shutdown (quitOk : Nat → Bool) (s : ManagerState) : Bool × ManagerState :=
  if s.initialized then
    if (s.instances.map (fun kv => kv.2.id)).all quitOk then
      (true, { s with instances := [], initialized := false })
    else
      (false, s)
  else (true, s)

/-- `RedisManager.init(config, force)`.  If already initialized and `force`
is false, return a fresh proxy with no state change.  Otherwise: when
`force` is true, call `this.shutdown()` WITHOUT awaiting it (only its
synchronous prefix runs now); then run `createInstance` for every key of
the config; set `initialized = true`; return a fresh proxy. -/
def init (config : List (String × RedisManagerConfigBase)) (force : Bool)
    (s : ManagerState) : Router × ManagerState :=
  if s.initialized ∧ force = false then
    (createProxy s, s)
  else
    let s1 := if force then shutdownSync s else s
    let s2 := config.foldl (fun st kv => (createInstance kv.1 kv.2 st).2) s1
    let s3 := { s2 with initialized := true }
    (createProxy s3, s3)

/-! ### Concrete states used by witnesses and counterexamples -/

/-- A sample property table for the transport client class: one callable
command and one plain field.  Crucially, like the real ioredis client, it
has no property named `connection`. -/
def sampleProps : List (String × Val) :=
  [("get", Val.fn 7), ("status", Val.plain 3)]

/-- Two distinguishable caller option records. -/
def optA : RedisManagerConfigBase := { host := "hostA", port := 6379 }

/-- Second options record, different from `optA`. -/
def optB : RedisManagerConfigBase := { host := "hostB", port := 6380 }

/-- The pristine state of the class before any `init`. -/
def initial : ManagerState :=
  { instances := [], initialized := false, nextId := 0
    classProps := sampleProps, pending := [] }

/-- State after a first `init({default: optA, cache: optB})`. -/
def sFirst : ManagerState :=
  (init [("default", optA), ("cache", optB)] false initial).2

/-- State right after the synchronous part of the forced re-init
`init({default: optB}, force = true)` returns (its un-awaited shutdown
continuation still queued on `pending`). -/
def sReinit : ManagerState :=
  (init [("default", optB)] true sFirst).2

/-- `sReinit` once the queued shutdown continuation settles, all quits
fulfilling. -/
def sSettled : ManagerState :=
  settlePending (fun _ => true) sReinit

/-- A later plain `init({default: optB})` on the settled state (the state is
uninitialized again, so this creates a genuinely new default client). -/
def sSecond : ManagerState :=
  (init [("default", optB)] false sSettled).2

/-! ### Association-list lemmas -/

theorem lookupAssoc_append_some {α : Type} {l : List (String × α)} {n : String}
    {c : α} (m : List (String × α)) (h : lookupAssoc l n = some c) :
    lookupAssoc (l ++ m) n = some c := by
  induction l with
  | nil => simp [lookupAssoc] at h
  | cons kv rest ih =>
      obtain ⟨k', v⟩ := kv
      by_cases hk : k' = n
      · simpa [lookupAssoc, hk] using h
      · simp [lookupAssoc, hk] at h ⊢
        exact ih h

theorem lookupAssoc_append_of_none {α : Type} {l : List (String × α)}
    {n : String} (m : List (String × α)) (h : lookupAssoc l n = none) :
    lookupAssoc (l ++ m) n = lookupAssoc m n := by
  induction l with
  | nil => simp [lookupAssoc]
  | cons kv rest ih =>
      obtain ⟨k', v⟩ := kv
      by_cases hk : k' = n
      · simp [lookupAssoc, hk] at h
      · simp [lookupAssoc, hk] at h ⊢
        exact ih h

theorem lookupAssoc_eraseKey_ne {α : Type} {l : List (String × α)}
    {k n : String} (h : k ≠ n) :
    lookupAssoc (eraseKey l k) n = lookupAssoc l n := by
  induction l with
  | nil => simp [eraseKey]
  | cons kv rest ih =>
      obtain ⟨k', v⟩ := kv
      by_cases hk : k' = k
      · subst hk
        simp [eraseKey, lookupAssoc, h, ih]
      · by_cases hn : k' = n
        · subst hn
          simp [eraseKey, hk, lookupAssoc]
        · simp [eraseKey, hk, lookupAssoc, hn, ih]

theorem lookupAssoc_eraseKey_self {α : Type} (l : List (String × α))
    (k : String) : lookupAssoc (eraseKey l k) k = none := by
  induction l with
  | nil => simp [eraseKey, lookupAssoc]
  | cons kv rest ih =>
      obtain ⟨k', v⟩ := kv
      by_cases hk : k' = k
      · simp [eraseKey, hk, ih]
      · simp [eraseKey, hk, lookupAssoc, ih]

/-! ### Lemmas about `createInstance` and `init` -/

theorem createInstance_mem {s : ManagerState} {key : String}
    (opt : RedisManagerConfigBase) :
    lookupAssoc (createInstance key opt s).2.instances key
      = some (createInstance key opt s).1 := by
  unfold createInstance
  cases h : lookupAssoc s.instances key with
  | some c => simp [h]
  | none =>
      simp only [h]
      have := lookupAssoc_append_of_none
        (l := s.instances) (n := key)
        ([(key, { id := s.nextId, opts := forceResilience opt,
                  props := s.classProps })]) h
      simp [this, lookupAssoc]

theorem createInstance_preserves {s : ManagerState} {key n : String}
    {c : RedisClient} (opt : RedisManagerConfigBase)
    (h : lookupAssoc s.instances n = some c) :
    lookupAssoc (createInstance key opt s).2.instances n = some c := by
  unfold createInstance
  cases hk : lookupAssoc s.instances key with
  | some c' => simpa [hk] using h
  | none =>
      simp only [hk]
      exact lookupAssoc_append_some _ h

theorem createInstance_of_mem {s : ManagerState} {key : String}
    {c : RedisClient} (opt : RedisManagerConfigBase)
    (h : lookupAssoc s.instances key = some c) :
    createInstance key opt s = (c, s) := by
  unfold createInstance
  simp [h]

theorem foldl_createInstance_preserves
    (config : List (String × RedisManagerConfigBase)) {n : String}
    {c : RedisClient} :
    ∀ s : ManagerState, lookupAssoc s.instances n = some c →
      lookupAssoc
        (config.foldl (fun st kv => (createInstance kv.1 kv.2 st).2) s).instances
        n = some c := by
  induction config with
  | nil => intro s h; simpa using h
  | cons kv rest ih =>
      intro s h
      exact ih _ (createInstance_preserves kv.2 h)

theorem shutdownSync_instances (s : ManagerState) :
    (shutdownSync s).instances = s.instances := by
  unfold shutdownSync
  by_cases h : s.initialized <;> simp [h]

/-- One observable transition of the manager state: a call to `init`, a
call to `createInstance`, the `end` event observer firing for a name,
settlement of a queued (un-awaited) shutdown continuation, or an awaited
`shutdown()` run to settlement. -/
inductive Step : ManagerState → ManagerState → Prop where
  | initStep (cfg : List (String × RedisManagerConfigBase)) (force : Bool)
      (s : ManagerState) : Step s (init cfg force s).2
  | createStep (key : String) (opt : RedisManagerConfigBase)
      (s : ManagerState) : Step s (createInstance key opt s).2
  | endStep (key : String) (s : ManagerState) : Step s (endEvent key s)
  | settleStep (quitOk : Nat → Bool) (s : ManagerState) :
      Step s (settlePending quitOk s)
  | shutdownStep (quitOk : Nat → Bool) (s : ManagerState) :
      Step s (shutdown quitOk s).2

theorem init_preserves {s : ManagerState} {n : String} {c : RedisClient}
    (cfg : List (String × RedisManagerConfigBase)) (force : Bool)
    (h : lookupAssoc s.instances n = some c) :
    lookupAssoc (init cfg force s).2.instances n = some c := by
  unfold init
  by_cases hi : s.initialized ∧ force = false
  · simp [hi, h]
  · simp only [hi, if_false]
    apply foldl_createInstance_preserves
    by_cases hf : force <;> simp [hf, shutdownSync_instances, h]

/-- The default client of `sFirst` (allocation id 0, options `optA`). -/
def cFirstDefault : RedisClient := (createInstance "default" optA initial).1

/-- The cache client of `sFirst` (allocation id 1, options `optB`). -/
def cFirstCache : RedisClient :=
  (createInstance "cache" optB (createInstance "default" optA initial).2).1

/-- The default client of `sSecond` (allocation id 2, options `optB`). -/
def cSecondDefault : RedisClient :=
  (createInstance "default" optB sSettled).1

/-! ### Claim theorems -/

/-- C1: the claim says `init(config, force=true)` after a prior `init` fully
settles the shutdown of all previously registered handles (every close
completed, registry cleared) before any new handle is created.  The code
calls `this.shutdown()` without awaiting it, so only the synchronous prefix
of `shutdown` runs before the re-population loop: after the forced re-init
`init({default: optB}, true)` on `sFirst`, no new client was allocated
(`nextId` unchanged), the entry under `"default"` is still the OLD client
(id 0, constructed from `optA`, not `optB`), the stale `"cache"` entry —
absent from the new config — is still registered, and when the queued
shutdown continuation later settles it clears the ENTIRE registry
(including the handles the re-init just returned) and resets
`initialized`, leaving the manager empty. -/
theorem forced_reinit_shutdown_not_awaited :
    sReinit.nextId = sFirst.nextId
    ∧ (lookupAssoc sReinit.instances "default").map
        (fun c => (c.id, c.opts.base)) = some (0, optA)
    ∧ (lookupAssoc sReinit.instances "cache").map (fun c => c.id) = some 1
    ∧ sReinit.initialized = true
    ∧ sSettled.instances = []
    ∧ sSettled.initialized = false :=
  ⟨rfl, rfl, rfl, rfl, rfl, rfl⟩

/-- C2: the claim says `shutdown()` resolves with an empty registry and
`initialized = false` even when an individual `quit()` fails.  The code
awaits `Promise.all`, which rejects as soon as one quit rejects, so the
statements after the `await` — `instances.clear()` and
`initialized = false` — never run: on `sFirst` (connections `default` and
`cache`) with the cache client's quit rejecting, `shutdown()` rejects, the
flag stays `true`, and both entries are still registered. -/
theorem shutdown_rejects_on_failing_quit :
    (shutdown (fun i => i != 1) sFirst).1 = false
    ∧ (shutdown (fun i => i != 1) sFirst).2.initialized = true
    ∧ ((shutdown (fun i => i != 1) sFirst).2.instances.map (fun kv => kv.1))
        = ["default", "cache"] :=
  ⟨rfl, rfl, rfl⟩

/-- C3: the claim says `connection(name)` on the Default Router performs an
explicit registry lookup, bypassing default resolution, independently of
whether a `default` handle exists.  The code assigns
`proxy.connection = this.connection` onto the raw target, but the proxy's
`get` trap intercepts every property access — `connection` included — and
resolves the `default` handle first: with `default` registered (and the
client, like ioredis clients, exposing no `connection` property) the access
throws `methodNotFound "connection"`; with `default` absent it throws
`connectionNotFound "default"` — never the requested-name lookup. -/
theorem proxy_connection_shadowed :
    "connection" ∈ (createProxy sFirst).targetProps
    ∧ routerAccess (createProxy sFirst) sFirst "connection"
        = Except.error (Err.methodNotFound "connection")
    ∧ routerAccess (createProxy sSettled) sSettled "connection"
        = Except.error (Err.connectionNotFound "default") :=
  ⟨by decide, rfl, rfl⟩

/-- C4: the Default Router resolves the `default` handle freshly on every
access: a router created at ANY earlier state, invoked at the current
state whose `default` entry is client `c`, forwards to `c` — nothing from
the creation-time state is consulted. -/
theorem router_resolves_default_dynamically (sOld sCur : ManagerState)
    (p : String) (c : RedisClient) (f : Nat)
    (hdef : connection "default" sCur = Except.ok c)
    (hp : lookupAssoc c.props p = some (Val.fn f)) :
    routerAccess (createProxy sOld) sCur p
      = Except.ok (GetResult.boundFn f c.id) := by
  unfold routerAccess proxyGet
  rw [hdef]
  simp [hp]

/-- C4 witness: the router obtained from the FIRST `init` (when `default`
was client id 0), invoked after the default entry has become client id 2,
binds the call to the new client id 2. -/
theorem router_resolves_default_dynamically_witness :
    routerAccess (createProxy sFirst) sSecond "get"
      = Except.ok (GetResult.boundFn 7 2) :=
  router_resolves_default_dynamically sFirst sSecond "get" cSecondDefault 7
    rfl rfl

/-- C5: when the manager is already initialized, `init(config, false)`
leaves the state completely unchanged (same registry mapping, same flag,
same allocation counter — so no new handles) and returns the router value
`createProxy s`, which carries no state of its own: it is indistinguishable
from the previously returned Default Router and is bound to the same
underlying registry state. -/
theorem init_idempotent_when_initialized
    (config : List (String × RedisManagerConfigBase)) (s : ManagerState)
    (h : s.initialized = true) :
    (init config false s).2 = s ∧ (init config false s).1 = createProxy s := by
  simp [init, h]

/-- C5 witness: a second `init` with `force = false` on the initialized
state `sFirst` changes nothing and returns the same router value. -/
theorem init_idempotent_when_initialized_witness :
    (init [("default", optB)] false sFirst).2 = sFirst
    ∧ (init [("default", optB)] false sFirst).1 = createProxy sFirst :=
  init_idempotent_when_initialized [("default", optB)] sFirst rfl

/-- C6: behaviour of a Default Router property access: if no `default`
entry is registered the access fails with the NotFound condition for
`default`; otherwise, a plain property of the default client is returned
as-is, a callable property is returned bound to that client, and a
property the client does not expose fails with the UnsupportedOperation
condition for that property name. -/
theorem proxy_forwarding_spec (s : ManagerState) (p : String) :
    (lookupAssoc s.instances "default" = none →
        proxyGet s p = Except.error (Err.connectionNotFound "default"))
    ∧ (∀ c : RedisClient, lookupAssoc s.instances "default" = some c →
        (∀ v, lookupAssoc c.props p = some (Val.plain v) →
            proxyGet s p = Except.ok (GetResult.plainVal v))
        ∧ (∀ f, lookupAssoc c.props p = some (Val.fn f) →
            proxyGet s p = Except.ok (GetResult.boundFn f c.id))
        ∧ (lookupAssoc c.props p = none →
            proxyGet s p = Except.error (Err.methodNotFound p))) := by
  constructor
  · intro h
    simp [proxyGet, connection, h]
  · intro c hc
    refine ⟨fun v hv => ?_, fun f hf => ?_, fun hn => ?_⟩
    · simp [proxyGet, connection, hc, hv]
    · simp [proxyGet, connection, hc, hf]
    · simp [proxyGet, connection, hc, hn]

/-- C6 witness: on `sFirst` the access `status` yields the plain value
as-is, `get` yields the callable bound to the default client (id 0), and
`bogus` fails with UnsupportedOperation; on the pristine state, where no
`default` entry exists, any access fails with NotFound for `default`. -/
theorem proxy_forwarding_spec_witness :
    proxyGet initial "get" = Except.error (Err.connectionNotFound "default")
    ∧ proxyGet sFirst "status" = Except.ok (GetResult.plainVal 3)
    ∧ proxyGet sFirst "get" = Except.ok (GetResult.boundFn 7 0)
    ∧ proxyGet sFirst "bogus" = Except.error (Err.methodNotFound "bogus") :=
  ⟨(proxy_forwarding_spec initial "get").1 rfl,
   ((proxy_forwarding_spec sFirst "status").2 cFirstDefault rfl).1 3 rfl,
   ((proxy_forwarding_spec sFirst "get").2 cFirstDefault rfl).2.1 7 rfl,
   ((proxy_forwarding_spec sFirst "bogus").2 cFirstDefault rfl).2.2 rfl⟩

/-- C7: `createInstance` is idempotent per name: a second call with the
same name (under any options) returns the identical client the first call
returned, and leaves the state — in particular the registry entry for that
name — exactly as the first call left it. -/
theorem createInstance_idempotent (s : ManagerState) (n : String)
    (o1 o2 : RedisManagerConfigBase) :
    createInstance n o2 (createInstance n o1 s).2
      = ((createInstance n o1 s).1, (createInstance n o1 s).2) :=
  createInstance_of_mem o2 (createInstance_mem o1)

/-- C8: `connection(name)` fails with the NotFound condition for `name`
exactly when no client is registered under `name`, and returns the
registered client otherwise. -/
theorem connection_lookup_spec (s : ManagerState) (n : String) :
    (connection n s = Except.error (Err.connectionNotFound n) ↔
        lookupAssoc s.instances n = none)
    ∧ (∀ c, lookupAssoc s.instances n = some c →
        connection n s = Except.ok c) := by
  unfold connection
  cases h : lookupAssoc s.instances n <;> simp [h]

/-- C8 witness: an unregistered name fails with NotFound both on the
pristine pre-init state and on the post-shutdown state, and a registered
name (`cache` on `sFirst`) returns its client. -/
theorem connection_lookup_spec_witness :
    connection "nonexistent" initial
      = Except.error (Err.connectionNotFound "nonexistent")
    ∧ connection "nonexistent" sSettled
      = Except.error (Err.connectionNotFound "nonexistent")
    ∧ connection "cache" sFirst = Except.ok cFirstCache :=
  ⟨(connection_lookup_spec initial "nonexistent").1.mpr rfl,
   (connection_lookup_spec sSettled "nonexistent").1.mpr rfl,
   (connection_lookup_spec sFirst "cache").2 cFirstCache rfl⟩

/-- C9: every client freshly constructed by `createInstance` carries the
forced resilience policy, whatever the caller-supplied options: reconnect
delay for attempt `t` is `min (t * 100) 5000` milliseconds (unbounded
attempts — the strategy is total and never signals giving up), the offline
queue is enabled, and a request is abandoned after 3 retries. -/
theorem resilience_policy_forced (s : ManagerState) (n : String)
    (opt : RedisManagerConfigBase) (t : Nat)
    (h : lookupAssoc s.instances n = none) :
    ((createInstance n opt s).1).opts.retryStrategy t = min (t * 100) 5000
    ∧ ((createInstance n opt s).1).opts.enableOfflineQueue = true
    ∧ ((createInstance n opt s).1).opts.maxRetriesPerRequest = 3 := by
  simp [createInstance, h, forceResilience]

/-- C9 witness: the first client constructed on the pristine state has
delay 700 ms at attempt 7 (capped at 5000 from attempt 50 up), offline
queueing on, and the 3-retry bound, regardless of `optA`. -/
theorem resilience_policy_forced_witness :
    ((createInstance "default" optA initial).1).opts.retryStrategy 7 = 700
    ∧ ((createInstance "default" optA initial).1).opts.enableOfflineQueue
        = true
    ∧ ((createInstance "default" optA initial).1).opts.maxRetriesPerRequest
        = 3 :=
  resilience_policy_forced initial "default" optA 7 rfl

/-- C10: registry entries are never overwritten in place: across every
observable transition, an entry present before the step is either still
mapped to the SAME client after it or has been removed — no step replaces
a present entry by a different client; and `createInstance` on an already
registered name returns without modifying the state at all. -/
theorem registry_entries_never_replaced :
    (∀ s s' : ManagerState, Step s s' → ∀ n c,
        lookupAssoc s.instances n = some c →
        lookupAssoc s'.instances n = some c
          ∨ lookupAssoc s'.instances n = none)
    ∧ (∀ (s : ManagerState) (n : String) (opt : RedisManagerConfigBase)
        (c : RedisClient), lookupAssoc s.instances n = some c →
        (createInstance n opt s).2 = s) := by
  constructor
  · intro s s' hstep n c h
    cases hstep with
    | initStep cfg force s => exact Or.inl (init_preserves cfg force h)
    | createStep key opt s => exact Or.inl (createInstance_preserves opt h)
    | endStep key s =>
        by_cases hk : key = n
        · subst hk
          exact Or.inr (lookupAssoc_eraseKey_self s.instances key)
        · exact Or.inl (by simpa [endEvent, lookupAssoc_eraseKey_ne hk] using h)
    | settleStep quitOk s =>
        unfold settlePending
        cases hp : s.pending with
        | nil => exact Or.inl h
        | cons q rest =>
            by_cases hall : q.all quitOk
            · exact Or.inr (by simp [hall, lookupAssoc])
            · exact Or.inl (by simpa [hall] using h)
    | shutdownStep quitOk s =>
        unfold shutdown
        by_cases hi : s.initialized
        · by_cases hall : (s.instances.map (fun kv => kv.2.id)).all quitOk
          · exact Or.inr (by simp [hi, hall, lookupAssoc])
          · exact Or.inl (by simpa [hi, hall] using h)
        · exact Or.inl (by simpa [hi] using h)
  · intro s n opt c h
    rw [createInstance_of_mem opt h]

/-- C10 witness: a forced re-init step from `sFirst` keeps the `default`
entry mapped to the same old client, and `createInstance` on the existing
name `default` leaves `sFirst` untouched. -/
theorem registry_entries_never_replaced_witness :
    (lookupAssoc sReinit.instances "default" = some cFirstDefault
      ∨ lookupAssoc sReinit.instances "default" = none)
    ∧ (createInstance "default" optB sFirst).2 = sFirst :=
  ⟨registry_entries_never_replaced.1 sFirst sReinit
      (Step.initStep [("default", optB)] true sFirst) "default" cFirstDefault
      rfl,
   registry_entries_never_replaced.2 sFirst "default" optB cFirstDefault rfl⟩

end RedisMgr
